import Mathlib

/-!
# Chat client (`static/script.js`)

A shallow embedding of the browser-side chat widget: the form's submit handler and
`appendMessage`, together with the parts of the platform they call
(`JSON.stringify`, the `textContent` setter, `classList.add`, `scrollTop`).

The platform is modelled after ECMA-262 and the DOM standard.  Three things are left to the
environment and appear as data:

* the decimal text of a number (`Number::toString`), carried by the number itself;
* layout (`scrollHeight`, `clientHeight`) and the wording of the engine's `TypeError`s,
  carried by `Browser`;
* what the network does: how `fetch(...)` and `response.json()` settle.

Strings are sequences of Unicode scalar values.  The elements fetched at the top of the script
(`chat-log`, `chat-form`, `user-input`, `emotion-display` and its `pre` child) are taken to exist.

The page keeps, next to its state, the sequence of the writes and calls the script has made
(`Page.effects`), so that the order of two steps can be told even when they touch different
parts of the page.  Nothing awaits the promise the handler returns, so a run that ends by an
error leaving the handler and a run that ends by a return are told apart only by the page they
leave.
-/

namespace ChatClient

/-! ## JavaScript values -/

/-- A JavaScript number as far as the client can see it: only its `Number::toString` text is
ever read, so a finite number carries that text. `JSON.parse` can yield the two infinities
(e.g. from `1e999`) but never `NaN`. -/
inductive JSNumber where
  | finite (shown : String)
  | posInf
  | negInf

mutual
/-- The JavaScript values a parsed JSON document is made of, and `undefined`
(the result of reading a missing property). Objects list their own properties in
enumeration order. -/
inductive JSValue where
  | undefined
  | null
  | bool (b : Bool)
  | number (n : JSNumber)
  | string (s : String)
  | array (items : JSList)
  | object (props : JSProps)
/-- The elements of an array. -/
inductive JSList where
  | nil
  | cons (head : JSValue) (tail : JSList)
/-- The own properties of an object. -/
inductive JSProps where
  | nil
  | cons (key : String) (value : JSValue) (tail : JSProps)
end

/-- An error object: its `name` (`Error`, `TypeError`, `SyntaxError`, ...) and its `message`. -/
structure JSError where
  name : String
  message : String
deriving DecidableEq, Repr

/-- How a promise settles. -/
inductive Settled (α : Type) where
  | fulfilled (value : α)
  | rejected (error : JSError)

/-- The operation `Number::toString`. -/
def JSNumber.toJSString : JSNumber → String
  | .finite shown => shown
  | .posInf => "Infinity"
  | .negInf => "-Infinity"

/-- The own property `key` of an object, if it has one. -/
def JSProps.find (key : String) : JSProps → Option JSValue
  | .nil => none
  | .cons k v tail => if k = key then some v else tail.find key

mutual
/-- The operation `ToString(v)`; `none` when it throws a `TypeError`. An array is its elements
joined by commas (`Array.prototype.toString` calls `join`). A plain object goes through
`OrdinaryToPrimitive`: without an own property `toString` it inherits
`Object.prototype.toString` and is `[object Object]`; with one, whose value is never callable
in a parsed document, no method yields a primitive (`Object.prototype.valueOf` returns the
object) and the conversion throws. -/
def JSValue.toJSString : JSValue → Option String
  | .undefined => some "undefined"
  | .null => some "null"
  | .bool b => some (if b then "true" else "false")
  | .number n => some n.toJSString
  | .string s => some s
  | .array items => items.joinParts.map (String.intercalate ",")
  | .object props => if (props.find "toString").isSome then none else some "[object Object]"
/-- The pieces `Array.prototype.join` puts together: `undefined` and `null` elements give the
empty string, every other element its `ToString`; `none` when one of these throws. -/
def JSList.joinParts : JSList → Option (List String)
  | .nil => some []
  | .cons .undefined tail => tail.joinParts.map (fun parts => "" :: parts)
  | .cons .null tail => tail.joinParts.map (fun parts => "" :: parts)
  | .cons head tail =>
      match head.toJSString with
      | none => none
      | some text => tail.joinParts.map (fun parts => text :: parts)
end

/-- The property read `base.key` on a value without inherited property of that name:
reading from `null` or `undefined` throws, a missing property reads as `undefined`.
`typeError` words the engine's `TypeError`. -/
def JSValue.getProp (typeError : JSValue → String → String) (base : JSValue) (key : String) :
    Except JSError JSValue :=
  match base with
  | .undefined => .error ⟨"TypeError", typeError .undefined key⟩
  | .null => .error ⟨"TypeError", typeError .null key⟩
  | .object props => .ok ((props.find key).getD .undefined)
  | _ => .ok .undefined

/-! ## `JSON.stringify` -/

/-- A lower-case hexadecimal digit. -/
def hexDigit (n : Nat) : Char :=
  if n < 10 then Char.ofNat (48 + n) else Char.ofNat (87 + n)

/-- The operation `UnicodeEscape`: a backslash, `u` and four hexadecimal digits. -/
def unicodeEscape (n : Nat) : String :=
  "\\u" ++ String.mk [hexDigit (n / 4096 % 16), hexDigit (n / 256 % 16),
    hexDigit (n / 16 % 16), hexDigit (n % 16)]

/-- One code point of `QuoteJSONString`. -/
def quoteChar (c : Char) : String :=
  if c.toNat = 8 then "\\b"
  else if c.toNat = 9 then "\\t"
  else if c.toNat = 10 then "\\n"
  else if c.toNat = 12 then "\\f"
  else if c.toNat = 13 then "\\r"
  else if c.toNat = 34 then "\\\""
  else if c.toNat = 92 then "\\\\"
  else if c.toNat < 32 then unicodeEscape c.toNat
  else String.singleton c

/-- The operation `QuoteJSONString`: the escaped code points between double quotes. -/
def QuoteJSONString (s : String) : String :=
  "\"" ++ String.join (s.toList.map quoteChar) ++ "\""

/-- The closing step of `SerializeJSONObject` and `SerializeJSONArray`: the parts between the
brackets `left` and `right`, on one line without a gap and one per line with it. -/
def wrapParts (gap stepback indent left right : String) (parts : List String) : String :=
  if parts = [] then left ++ right
  else if gap = "" then left ++ String.intercalate "," parts ++ right
  else left ++ "\n" ++ indent ++ String.intercalate (",\n" ++ indent) parts
    ++ "\n" ++ stepback ++ right

mutual
/-- The operation `SerializeJSONProperty` without replacer and without `toJSON`; `none` is `undefined`. -/
def serializeProperty (gap indent : String) : JSValue → Option String
  | .undefined => none
  | .null => some "null"
  | .bool b => some (if b then "true" else "false")
  | .number (.finite shown) => some shown
  | .number _ => some "null"
  | .string s => some (QuoteJSONString s)
  | .array items =>
      some (wrapParts gap indent (indent ++ gap) "[" "]" (serializeItems gap (indent ++ gap) items))
  | .object props =>
      some (wrapParts gap indent (indent ++ gap) "\x7b" "\x7d"
        (serializeMembers gap (indent ++ gap) props))
/-- The elements of `SerializeJSONArray`: an element without serialization is `null`. -/
def serializeItems (gap indent : String) : JSList → List String
  | .nil => []
  | .cons head tail =>
      (serializeProperty gap indent head).getD "null" :: serializeItems gap indent tail
/-- The members of `SerializeJSONObject`: a property without serialization is left out. -/
def serializeMembers (gap indent : String) : JSProps → List String
  | .nil => []
  | .cons key value tail =>
      match serializeProperty gap indent value with
      | some text =>
          (QuoteJSONString key ++ ":" ++ (if gap = "" then "" else " ") ++ text)
            :: serializeMembers gap indent tail
      | none => serializeMembers gap indent tail
end

/-- The call `JSON.stringify(value, null, space)` for a numeric `space` (`0` when the argument is
absent): the gap is `min(10, space)` spaces. -/
def JSON.stringify (value : JSValue) (space : Nat) : JSValue :=
  match serializeProperty (String.mk (List.replicate (min 10 space) (Char.ofNat 32))) "" value with
  | some text => .string text
  | none => .undefined

/-! ## The page -/

/-- A child of the chat log: the `div` built by `appendMessage`. -/
structure MessageElement where
  classList : List String
  textContent : String
deriving DecidableEq, Repr

/-- A call of `fetch`. -/
structure Request where
  url : String
  method : String
  headers : List (String × String)
  body : JSValue

/-- A write or call the script makes: `chatLog.appendChild(el)`, the assignment
`chatLog.scrollTop = y`, the assignment `userInput.value = value`, `fetch(...)`,
`console.error(label, error)`, and the assignment of `text` to the `textContent` of the `pre`
inside `emotionDisplay`. -/
inductive Effect where
  | appendChild (el : MessageElement)
  | scrollTop (y : Nat)
  | inputValue (value : String)
  | fetch (request : Request)
  | consoleError (label : String) (error : JSError)
  | preText (text : String)

/-- What the script can reach: the children and scroll position of `chatLog`, the value of
`userInput`, the text of the `pre` inside `emotionDisplay`, the calls of `fetch` made so far
and the errors printed by `console.error` (label and error); and, in the order they were made,
the writes and calls of the script so far. -/
structure Page where
  chatLog : List MessageElement
  scrollTop : Nat
  userInput : String
  emotionDisplay : String
  requests : List Request
  console : List (String × JSError)
  effects : List Effect

/-- The environment the script runs in: the layout of the chat log, the wording of the
`TypeError` thrown by a property read on `null` or `undefined`, and the wording of the
`TypeError` thrown when an object cannot be converted to a string. -/
structure Browser where
  scrollHeight : List MessageElement → Nat
  clientHeight : Nat
  typeError : JSValue → String → String
  convertError : String

/-- The value the `textContent` setter (`DOMString?`) stores: `null` and `undefined` give the
empty string, everything else its `ToString`, which may throw. -/
def setTextContent (B : Browser) : JSValue → Except JSError String
  | .undefined => .ok ""
  | .null => .ok ""
  | v =>
      match v.toJSString with
      | some text => .ok text
      | none => .error ⟨"TypeError", B.convertError⟩

/-- The call `classList.add(token)`: the token joins the set unless it is in it. -/
def classListAdd (token : String) (classList : List String) : List String :=
  if token ∈ classList then classList else classList ++ [token]

/-- The largest scroll position of the chat log with the given children. -/
def Browser.scrollMax (B : Browser) (children : List MessageElement) : Nat :=
  B.scrollHeight children - B.clientHeight

/-- The assignment `chatLog.scrollTop = y`: the position is clamped to the scrollable range. -/
def setScrollTop (B : Browser) (y : Nat) (p : Page) : Page :=
  { p with scrollTop := min y (B.scrollMax p.chatLog)
           effects := p.effects ++ [.scrollTop y] }

/-- The comparison `sender === 'user'`. -/
def isUser : JSValue → Bool
  | .string s => s == "user"
  | _ => false

/-- The call `chatLog.appendChild(messageElement)`. -/
def appendChild (el : MessageElement) (p : Page) : Page :=
  { p with chatLog := p.chatLog ++ [el]
           effects := p.effects ++ [.appendChild el] }

/-- The function `appendMessage(message, sender)` (lines 55-70). When the assignment to
`textContent` (line 65) throws, the element has not been attached and the page is as it
was. -/
def appendMessage (B : Browser) (message sender : JSValue) (p : Page) : Except JSError Page :=
  let messageElement : MessageElement := ⟨classListAdd "message" [], ""⟩
  let messageElement : MessageElement :=
    if isUser sender then
      { messageElement with classList := classListAdd "user-message" messageElement.classList }
    else
      { messageElement with classList := classListAdd "ai-message" messageElement.classList }
  match setTextContent B message with
  | .error error => .error error
  | .ok text =>
      let messageElement : MessageElement := { messageElement with textContent := text }
      let p := appendChild messageElement p
      .ok (setScrollTop B (B.scrollHeight p.chatLog) p)

/-! ## The submit handler -/

/-- The text shown in the log when the exchange fails (line 49). -/
def failureText : String :=
  "エラーが発生しました。サーバーが起動しているか確認してください。"

/-- The `div` that `appendMessage(text, 'user')` adds. -/
def userEntry (text : String) : MessageElement :=
  ⟨["message", "user-message"], text⟩

/-- The `div` that `appendMessage(text, 'ai')` adds. -/
def aiEntry (text : String) : MessageElement :=
  ⟨["message", "ai-message"], text⟩

/-- The argument of `fetch` for the message `userMessage` (lines 22-28). -/
def chatRequest (userMessage : String) : Request :=
  { url := "http://127.0.0.1:5000/chat"
    method := "POST"
    headers := [("Content-Type", "application/json")]
    body := JSON.stringify (.object (.cons "message" (.string userMessage) .nil)) 0 }

/-- The call `fetch(...)`: the request goes out. -/
def fetch (request : Request) (p : Page) : Page :=
  { p with requests := p.requests ++ [request]
           effects := p.effects ++ [.fetch request] }

/-- The assignment `userInput.value = value`. -/
def setInputValue (value : String) (p : Page) : Page :=
  { p with userInput := value
           effects := p.effects ++ [.inputValue value] }

/-- The call `console.error(label, error)`. -/
def consoleError (label : String) (error : JSError) (p : Page) : Page :=
  { p with console := p.console ++ [(label, error)]
           effects := p.effects ++ [.consoleError label error] }

/-- The assignment of the string `text` to `emotionDisplay.querySelector('pre').textContent`. -/
def setPreText (text : String) (p : Page) : Page :=
  { p with emotionDisplay := text
           effects := p.effects ++ [.preText text] }

/-- A response as the handler reads it: its status. -/
structure Response where
  status : Nat

/-- The getter `response.ok`: the status is in the range 200-299. -/
def Response.ok (response : Response) : Bool :=
  decide (200 ≤ response.status) && decide (response.status ≤ 299)

/-- The error of line 32. -/
def serverError (status : Nat) : JSError :=
  ⟨"Error", "サーバーエラー: " ++ toString status⟩

/-- The `catch` block (lines 46-51): the page when the handler ends. Were line 49 to throw,
the error would leave the handler with line 50 not run; a string is always converted, so this
does not happen. -/
def catchBlock (B : Browser) (error : JSError) (p : Page) : Page :=
  let p := consoleError "通信エラー:" error p
  match appendMessage B (.string failureText) (.string "ai") p with
  | .error _ => p
  | .ok p => setPreText ("エラー: " ++ error.message) p

/-- The handler up to its first `await` (lines 9-28): `none` when the run ends before `fetch`
with the page as it was, otherwise the page once `fetch` has been called. The run ends there
when it returns at line 12; it would also if line 15, which is outside the `try`, threw, but a
string is always converted. `event.preventDefault()` keeps the browser from leaving the page
and changes nothing on it. -/
def submitSync (B : Browser) (p : Page) : Option Page :=
  let userMessage := p.userInput
  if userMessage = "" then none
  else
    match appendMessage B (.string userMessage) (.string "user") p with
    | .error _ => none
    | .ok p =>
        let p := setInputValue "" p
        some (fetch (chatRequest userMessage) p)

/-- Where a run of the handler stands after a step: it has ended, or it waits for
`response.json()`. -/
inductive Progress where
  | finished (p : Page)
  | awaitBody (p : Page)

/-- The page a step of the handler leaves. -/
def Progress.page : Progress → Page
  | .finished p => p
  | .awaitBody p => p

/-- The handler from the settlement of `fetch` to its next `await` (lines 22-36). -/
def afterFetch (B : Browser) (fetched : Settled Response) (p : Page) : Progress :=
  match fetched with
  | .rejected error => .finished (catchBlock B error p)
  | .fulfilled response =>
      if !response.ok then .finished (catchBlock B (serverError response.status) p)
      else .awaitBody p

/-- The handler from the settlement of `response.json()` to its end (lines 36-51): every
error thrown on the way goes to the `catch` block, with the page as the `try` block left
it. -/
def afterBody (B : Browser) (body : Settled JSValue) (p : Page) : Page :=
  match body with
  | .rejected error => catchBlock B error p
  | .fulfilled data =>
      match data.getProp B.typeError "ai_message" with
      | .error error => catchBlock B error p
      | .ok ai_message =>
          match appendMessage B ai_message (.string "ai") p with
          | .error error => catchBlock B error p
          | .ok p =>
              match data.getProp B.typeError "emotion_parameters" with
              | .error error => catchBlock B error p
              | .ok emotion_parameters =>
                  match setTextContent B (JSON.stringify emotion_parameters 2) with
                  | .error error => catchBlock B error p
                  | .ok text => setPreText text p

/-- What the network does with one request: how `fetch` settles and, if the handler comes to
call `response.json()`, how that settles. -/
structure Outcome where
  fetched : Settled Response
  body : Settled JSValue

/-- The handler after its first `await` (lines 22-51) with no other event in between. -/
def resume (B : Browser) (outcome : Outcome) (p : Page) : Page :=
  match afterFetch B outcome.fetched p with
  | .finished p => p
  | .awaitBody p => afterBody B outcome.body p

/-- One run of the submit handler (lines 8-52) with no other event in between. -/
def submitHandler (B : Browser) (outcome : Outcome) (p : Page) : Page :=
  match submitSync B p with
  | none => p
  | some p => resume B outcome p

/-! ## Several runs of the handler on one event loop -/

/-- Where a suspended run of the handler waits. -/
inductive Stage where
  | awaitingFetch
  | awaitingBody
deriving DecidableEq, Repr

/-- The page with the runs of the handler that are suspended on it. A run is named by the
number of its submission. -/
structure System where
  page : Page
  suspended : List (Nat × Stage)
  submissions : Nat

/-- What the event loop delivers: the user edits the input field (which is no effect of the
script), the form is submitted, the `fetch` of a run settles, the `response.json()` of a run
settles. -/
inductive Event where
  | edit (value : String)
  | submit
  | fetchSettled (run : Nat) (fetched : Settled Response)
  | bodySettled (run : Nat) (body : Settled JSValue)

/-- The stage a run is suspended at, if it is. -/
def System.stageOf (s : System) (run : Nat) : Option Stage :=
  s.suspended.lookup run

/-- The suspended runs without `run`. -/
def System.drop (s : System) (run : Nat) : List (Nat × Stage) :=
  s.suspended.filter (fun t => t.1 != run)

/-- One turn of the event loop. A settlement is delivered only to a run that waits for it. -/
def System.step (B : Browser) (s : System) : Event → System
  | .edit value => { s with page := { s.page with userInput := value } }
  | .submit =>
      match submitSync B s.page with
      | none => { s with submissions := s.submissions + 1 }
      | some p =>
          { page := p
            suspended := s.suspended ++ [(s.submissions, .awaitingFetch)]
            submissions := s.submissions + 1 }
  | .fetchSettled run fetched =>
      match s.stageOf run with
      | some .awaitingFetch =>
          match afterFetch B fetched s.page with
          | .finished p => { s with page := p, suspended := s.drop run }
          | .awaitBody p =>
              { s with page := p, suspended := s.drop run ++ [(run, .awaitingBody)] }
      | _ => s
  | .bodySettled run body =>
      match s.stageOf run with
      | some .awaitingBody => { s with page := afterBody B body s.page, suspended := s.drop run }
      | _ => s

/-- The event loop over a sequence of events. -/
def System.run (B : Browser) (s : System) (events : List Event) : System :=
  events.foldl (System.step B) s

/-- The events of one request settling: its `fetch`, then its `response.json()`. -/
def settle (run : Nat) (outcome : Outcome) : List Event :=
  [.fetchSettled run outcome.fetched, .bodySettled run outcome.body]

/-! ## A sample environment -/

/-- A browser whose chat log is 100 pixels high with 20 pixels per message, and which words
its `TypeError`s like V8. -/
def sampleBrowser : Browser where
  scrollHeight := fun children => max 100 (20 * children.length)
  clientHeight := 100
  typeError := fun base key =>
    "Cannot read properties of "
      ++ (match base with
          | .null => "null"
          | _ => "undefined")
      ++ " (reading \'" ++ key ++ "\')"
  convertError := "Cannot convert object to primitive value"

/-- A page that shows one earlier exchange, with `text` typed into the input field; its record
of effects starts afresh. -/
def typedPage (text : String) : Page :=
  { chatLog := [userEntry "good morning", aiEntry "good morning!"]
    scrollTop := 0
    userInput := text
    emotionDisplay := "\x7b\x7d"
    requests := [chatRequest "good morning"]
    console := []
    effects := [] }

/-- The parsed body of a success response: `ai_message` is `hello` and `emotion_parameters`
has the one property `joy` with the number 0.5. -/
def helloData : JSValue :=
  .object (.cons "ai_message" (.string "hello")
    (.cons "emotion_parameters" (.object (.cons "joy" (.number (.finite "0.5")) .nil)) .nil))

/-- A response with the given status whose body parses to `data`. -/
def answered (status : Nat) (data : JSValue) : Outcome :=
  ⟨.fulfilled ⟨status⟩, .fulfilled data⟩

/-- A parsed body whose `ai_message` is an object with the one own property `toString`, of
value 1, and whose `emotion_parameters` is the empty object. -/
def opaqueData : JSValue :=
  .object (.cons "ai_message" (.object (.cons "toString" (.number (.finite "1")) .nil))
    (.cons "emotion_parameters" (.object .nil) .nil))

/-- A request the network could not deliver. -/
def refused : Outcome :=
  ⟨.rejected ⟨"TypeError", "Failed to fetch"⟩, .rejected ⟨"TypeError", "Failed to fetch"⟩⟩

/-! ## Basic facts -/

theorem setTextContent_string (B : Browser) (text : String) :
    setTextContent B (.string text) = .ok text := by
  simp [setTextContent, JSValue.toJSString]

/-- The text of `JSON.stringify` is always stored: the result is a string or `undefined`. -/
theorem setTextContent_stringify (B : Browser) (value : JSValue) (space : Nat) :
    ∃ shown : String, setTextContent B (JSON.stringify value space) = .ok shown := by
  unfold JSON.stringify
  cases serializeProperty (String.mk (List.replicate (min 10 space) (Char.ofNat 32))) "" value with
  | none => exact ⟨"", rfl⟩
  | some text => exact ⟨text, setTextContent_string B text⟩

theorem appendMessage_ok (B : Browser) (message sender : JSValue) (text : String) (p : Page)
    (h : setTextContent B message = .ok text) :
    appendMessage B message sender p = .ok
      { p with
        chatLog := p.chatLog ++
          [⟨if isUser sender then ["message", "user-message"] else ["message", "ai-message"],
            text⟩]
        scrollTop := B.scrollMax (p.chatLog ++
          [⟨if isUser sender then ["message", "user-message"] else ["message", "ai-message"],
            text⟩])
        effects := p.effects ++
          [.appendChild
              ⟨if isUser sender then ["message", "user-message"] else ["message", "ai-message"],
                text⟩,
            .scrollTop (B.scrollHeight (p.chatLog ++
              [⟨if isUser sender then ["message", "user-message"] else ["message", "ai-message"],
                text⟩]))] } := by
  cases hs : isUser sender <;>
    simp [appendMessage, appendChild, setScrollTop, classListAdd, h, hs, Browser.scrollMax]

theorem appendMessage_error (B : Browser) (message sender : JSValue) (error : JSError)
    (p : Page) (h : setTextContent B message = .error error) :
    appendMessage B message sender p = .error error := by
  simp [appendMessage, h]

theorem appendMessage_user (B : Browser) (text : String) (p : Page) :
    appendMessage B (.string text) (.string "user") p = .ok
      { p with chatLog := p.chatLog ++ [userEntry text]
               scrollTop := B.scrollMax (p.chatLog ++ [userEntry text])
               effects := p.effects ++
                 [.appendChild (userEntry text),
                  .scrollTop (B.scrollHeight (p.chatLog ++ [userEntry text]))] } := by
  rw [appendMessage_ok B _ _ text p (setTextContent_string B text)]
  simp [isUser, userEntry]

theorem appendMessage_ai (B : Browser) (message : JSValue) (text : String) (p : Page)
    (h : setTextContent B message = .ok text) :
    appendMessage B message (.string "ai") p = .ok
      { p with chatLog := p.chatLog ++ [aiEntry text]
               scrollTop := B.scrollMax (p.chatLog ++ [aiEntry text])
               effects := p.effects ++
                 [.appendChild (aiEntry text),
                  .scrollTop (B.scrollHeight (p.chatLog ++ [aiEntry text]))] } := by
  rw [appendMessage_ok B _ _ text p h]
  have hu : isUser (.string "ai") = false := by decide
  simp [hu, aiEntry]

theorem catchBlock_eq (B : Browser) (error : JSError) (p : Page) :
    catchBlock B error p =
      { p with chatLog := p.chatLog ++ [aiEntry failureText]
               scrollTop := B.scrollMax (p.chatLog ++ [aiEntry failureText])
               emotionDisplay := "エラー: " ++ error.message
               console := p.console ++ [("通信エラー:", error)]
               effects := p.effects ++
                 [.consoleError "通信エラー:" error,
                  .appendChild (aiEntry failureText),
                  .scrollTop (B.scrollHeight (p.chatLog ++ [aiEntry failureText])),
                  .preText ("エラー: " ++ error.message)] } := by
  simp [catchBlock, consoleError, setPreText,
    appendMessage_ai B _ failureText _ (setTextContent_string B failureText)]

theorem submitSync_empty (B : Browser) (p : Page) (h : p.userInput = "") :
    submitSync B p = none := by
  simp [submitSync, h]

theorem submitSync_eq (B : Browser) (p : Page) (h : p.userInput ≠ "") :
    submitSync B p =
      some { p with chatLog := p.chatLog ++ [userEntry p.userInput]
                    scrollTop := B.scrollMax (p.chatLog ++ [userEntry p.userInput])
                    userInput := ""
                    requests := p.requests ++ [chatRequest p.userInput]
                    effects := p.effects ++
                      [.appendChild (userEntry p.userInput),
                       .scrollTop (B.scrollHeight (p.chatLog ++ [userEntry p.userInput])),
                       .inputValue "",
                       .fetch (chatRequest p.userInput)] } := by
  simp [submitSync, h, appendMessage_user, fetch, setInputValue]

/-- A non-empty submission reaches `fetch`; the page there, field by field. -/
theorem submitSync_fields (B : Browser) (p : Page) (h : p.userInput ≠ "") :
    ∃ p1 : Page, submitSync B p = some p1 ∧
      p1.chatLog = p.chatLog ++ [userEntry p.userInput] ∧
      p1.scrollTop = B.scrollMax p1.chatLog ∧
      p1.userInput = "" ∧
      p1.emotionDisplay = p.emotionDisplay ∧
      p1.requests = p.requests ++ [chatRequest p.userInput] ∧
      p1.console = p.console ∧
      p1.effects = p.effects ++
        [.appendChild (userEntry p.userInput),
         .scrollTop (B.scrollHeight (p.chatLog ++ [userEntry p.userInput])),
         .inputValue "",
         .fetch (chatRequest p.userInput)] :=
  ⟨_, submitSync_eq B p h, rfl, rfl, rfl, rfl, rfl, rfl, rfl⟩

theorem submitHandler_some (B : Browser) (outcome : Outcome) (p p1 : Page)
    (h : submitSync B p = some p1) :
    submitHandler B outcome p = resume B outcome p1 := by
  simp [submitHandler, h]

theorem ok_iff (status : Nat) : Response.ok ⟨status⟩ = true ↔ 200 ≤ status ∧ status ≤ 299 := by
  simp [Response.ok]

theorem resume_rejected (B : Browser) (error : JSError) (body : Settled JSValue) (p : Page) :
    resume B ⟨.rejected error, body⟩ p = catchBlock B error p := by
  simp [resume, afterFetch]

theorem resume_not_ok (B : Browser) (status : Nat) (body : Settled JSValue) (p : Page)
    (h : Response.ok ⟨status⟩ = false) :
    resume B ⟨.fulfilled ⟨status⟩, body⟩ p = catchBlock B (serverError status) p := by
  simp [resume, afterFetch, h]

theorem resume_ok (B : Browser) (status : Nat) (body : Settled JSValue) (p : Page)
    (h : Response.ok ⟨status⟩ = true) :
    resume B ⟨.fulfilled ⟨status⟩, body⟩ p = afterBody B body p := by
  simp [resume, afterFetch, h]

theorem afterBody_rejected (B : Browser) (error : JSError) (p : Page) :
    afterBody B (.rejected error) p = catchBlock B error p := by
  simp [afterBody]

theorem afterBody_null (B : Browser) (p : Page) :
    afterBody B (.fulfilled .null) p
      = catchBlock B ⟨"TypeError", B.typeError .null "ai_message"⟩ p := by
  simp [afterBody, JSValue.getProp]

theorem afterBody_undefined (B : Browser) (p : Page) :
    afterBody B (.fulfilled .undefined) p
      = catchBlock B ⟨"TypeError", B.typeError .undefined "ai_message"⟩ p := by
  simp [afterBody, JSValue.getProp]

/-- The two property reads of the `try` block succeed on a value that is neither `null` nor
`undefined`. -/
theorem getProp_value (B : Browser) (data : JSValue)
    (hn : data ≠ .null) (hu : data ≠ .undefined) :
    ∃ ai_message emotion_parameters : JSValue,
      data.getProp B.typeError "ai_message" = .ok ai_message ∧
      data.getProp B.typeError "emotion_parameters" = .ok emotion_parameters := by
  cases data <;> simp_all [JSValue.getProp]

/-- The `try` block when the reply cannot be converted to a string: line 39 throws before the
log is touched and the `catch` block runs. -/
theorem afterBody_unconvertible (B : Browser) (data ai_message : JSValue) (error : JSError)
    (p : Page) (hm : data.getProp B.typeError "ai_message" = .ok ai_message)
    (ht : setTextContent B ai_message = .error error) :
    afterBody B (.fulfilled data) p = catchBlock B error p := by
  simp [afterBody, hm, appendMessage_error B _ _ error p ht]

/-- The `try` block when both reads succeed and the reply is converted: the page gets the
reply and the parameter text, and the `catch` block does not run. -/
theorem afterBody_rendered (B : Browser) (data ai_message emotion_parameters : JSValue)
    (text shown : String) (p : Page)
    (hm : data.getProp B.typeError "ai_message" = .ok ai_message)
    (he : data.getProp B.typeError "emotion_parameters" = .ok emotion_parameters)
    (ht : setTextContent B ai_message = .ok text)
    (hs : setTextContent B (JSON.stringify emotion_parameters 2) = .ok shown) :
    afterBody B (.fulfilled data) p =
      { p with chatLog := p.chatLog ++ [aiEntry text]
               scrollTop := B.scrollMax (p.chatLog ++ [aiEntry text])
               emotionDisplay := shown
               effects := p.effects ++
                 [.appendChild (aiEntry text),
                  .scrollTop (B.scrollHeight (p.chatLog ++ [aiEntry text])),
                  .preText shown] } := by
  simp [afterBody, hm, he, hs, appendMessage_ai B _ text p ht, setPreText]

/-- The two ways the handler can end after its first `await`: in the `catch` block with some
error, or after a 2xx response whose body parsed to a value on which both property reads
succeed and whose reply is converted to a string. -/
theorem resume_cases (B : Browser) (outcome : Outcome) (p : Page) :
    (∃ error : JSError, resume B outcome p = catchBlock B error p) ∨
    (∃ (status : Nat) (data ai_message emotion_parameters : JSValue) (text shown : String),
      outcome = ⟨.fulfilled ⟨status⟩, .fulfilled data⟩ ∧ Response.ok ⟨status⟩ = true ∧
      data.getProp B.typeError "ai_message" = .ok ai_message ∧
      data.getProp B.typeError "emotion_parameters" = .ok emotion_parameters ∧
      setTextContent B ai_message = .ok text ∧
      setTextContent B (JSON.stringify emotion_parameters 2) = .ok shown ∧
      resume B outcome p =
        { p with chatLog := p.chatLog ++ [aiEntry text]
                 scrollTop := B.scrollMax (p.chatLog ++ [aiEntry text])
                 emotionDisplay := shown
                 effects := p.effects ++
                   [.appendChild (aiEntry text),
                    .scrollTop (B.scrollHeight (p.chatLog ++ [aiEntry text])),
                    .preText shown] }) := by
  obtain ⟨fetched, body⟩ := outcome
  cases fetched with
  | rejected error => exact .inl ⟨error, resume_rejected B error body p⟩
  | fulfilled response =>
      obtain ⟨status⟩ := response
      cases hok : Response.ok ⟨status⟩ with
      | false => exact .inl ⟨_, resume_not_ok B status body p hok⟩
      | true =>
          cases body with
          | rejected error =>
              exact .inl ⟨error, by rw [resume_ok B status _ p hok, afterBody_rejected]⟩
          | fulfilled data =>
              by_cases hn : data = .null
              · subst hn
                exact .inl ⟨_, by rw [resume_ok B status _ p hok, afterBody_null]⟩
              · by_cases hu : data = .undefined
                · subst hu
                  exact .inl ⟨_, by rw [resume_ok B status _ p hok, afterBody_undefined]⟩
                · obtain ⟨m, e, hm, he⟩ := getProp_value B data hn hu
                  obtain ⟨shown, hs⟩ := setTextContent_stringify B e 2
                  cases ht : setTextContent B m with
                  | error error =>
                      exact .inl ⟨error, by
                        rw [resume_ok B status _ p hok,
                          afterBody_unconvertible B data m error p hm ht]⟩
                  | ok text =>
                      exact .inr ⟨status, data, m, e, text, shown, rfl, hok, hm, he, ht, hs, by
                        rw [resume_ok B status _ p hok,
                          afterBody_rendered B data m e text shown p hm he ht hs]⟩

/-- Whatever the outcome, the handler after its first `await` adds one `ai` entry, scrolls to
the bottom, sets the parameter text and may print to the console, and leaves the input field
and the requests alone; which entry, text and print depends on the outcome and the browser
alone. -/
theorem resume_uniform (B : Browser) (outcome : Outcome) :
    ∃ (text display : String) (printed : List (String × JSError)), ∀ p : Page,
      (resume B outcome p).chatLog = p.chatLog ++ [aiEntry text] ∧
      (resume B outcome p).scrollTop = B.scrollMax (p.chatLog ++ [aiEntry text]) ∧
      (resume B outcome p).userInput = p.userInput ∧
      (resume B outcome p).emotionDisplay = display ∧
      (resume B outcome p).requests = p.requests ∧
      (resume B outcome p).console = p.console ++ printed := by
  have hc : ∀ error : JSError, (∀ p, resume B outcome p = catchBlock B error p) →
      ∃ (text display : String) (printed : List (String × JSError)), ∀ p : Page,
        (resume B outcome p).chatLog = p.chatLog ++ [aiEntry text] ∧
        (resume B outcome p).scrollTop = B.scrollMax (p.chatLog ++ [aiEntry text]) ∧
        (resume B outcome p).userInput = p.userInput ∧
        (resume B outcome p).emotionDisplay = display ∧
        (resume B outcome p).requests = p.requests ∧
        (resume B outcome p).console = p.console ++ printed :=
    fun error h => ⟨failureText, "エラー: " ++ error.message, [("通信エラー:", error)], fun p => by
      rw [h p, catchBlock_eq]
      exact ⟨rfl, rfl, rfl, rfl, rfl, rfl⟩⟩
  obtain ⟨fetched, body⟩ := outcome
  cases fetched with
  | rejected error => exact hc error (fun p => resume_rejected B error body p)
  | fulfilled response =>
      obtain ⟨status⟩ := response
      cases hok : Response.ok ⟨status⟩ with
      | false => exact hc _ (fun p => resume_not_ok B status body p hok)
      | true =>
          cases body with
          | rejected error =>
              exact hc error (fun p => by rw [resume_ok B status _ p hok, afterBody_rejected])
          | fulfilled data =>
              by_cases hn : data = .null
              · subst hn
                exact hc _ (fun p => by rw [resume_ok B status _ p hok, afterBody_null])
              · by_cases hu : data = .undefined
                · subst hu
                  exact hc _ (fun p => by rw [resume_ok B status _ p hok, afterBody_undefined])
                · obtain ⟨m, e, hm, he⟩ := getProp_value B data hn hu
                  obtain ⟨shown, hs⟩ := setTextContent_stringify B e 2
                  cases ht : setTextContent B m with
                  | error error =>
                      exact hc error (fun p => by
                        rw [resume_ok B status _ p hok,
                          afterBody_unconvertible B data m error p hm ht])
                  | ok text =>
                      refine ⟨text, shown, [], fun p => ?_⟩
                      rw [resume_ok B status _ p hok,
                        afterBody_rendered B data m e text shown p hm he ht hs]
                      exact ⟨rfl, rfl, rfl, rfl, rfl, by simp⟩

theorem quote_message_key : QuoteJSONString "message" = "\"message\"" := by decide

/-- The request body: `JSON.stringify` of an object with the one property `message`. -/
theorem chatRequest_body (text : String) :
    (chatRequest text).body = .string ("\x7b\"message\":" ++ QuoteJSONString text ++ "\x7d") := by
  simp [chatRequest, JSON.stringify, serializeProperty, serializeMembers, wrapParts,
    quote_message_key, String.intercalate, String.intercalate.go]
  rw [← String.append_assoc]
  rfl

/-! ### The event loop -/

theorem lookup_drop (l : List (Nat × Stage)) (run : Nat) :
    (l.filter (fun t => t.1 != run)).lookup run = none := by
  induction l with
  | nil => rfl
  | cons t l ih =>
      obtain ⟨k, st⟩ := t
      by_cases hk : k = run
      · rw [List.filter_cons_of_neg (by simp [hk])]
        exact ih
      · have hne : (run == k) = false := by simpa using fun h => hk h.symm
        rw [List.filter_cons_of_pos (by simpa using hk)]
        simp only [List.lookup, hne]
        exact ih

theorem lookup_append_hit (l : List (Nat × Stage)) (run : Nat) (st : Stage)
    (rest : List (Nat × Stage)) (h : l.lookup run = none) :
    (l ++ (run, st) :: rest).lookup run = some st := by
  induction l with
  | nil => simp [List.lookup]
  | cons t l ih =>
      obtain ⟨k, st1⟩ := t
      cases hk : (run == k) with
      | true => simp [List.lookup, hk] at h
      | false =>
          simp only [List.lookup, hk] at h
          simp [List.lookup, hk, ih h]

theorem lookup_fresh (l : List (Nat × Stage)) (n run : Nat) (hl : ∀ t ∈ l, t.1 < n)
    (hr : n ≤ run) : l.lookup run = none := by
  induction l with
  | nil => rfl
  | cons t l ih =>
      obtain ⟨k, st⟩ := t
      have hk : k < n := hl (k, st) (by simp)
      have hne : (run == k) = false := by
        simp only [beq_eq_false_iff_ne, ne_eq]
        omega
      simp only [List.lookup, hne]
      exact ih (fun t ht => hl t (List.mem_cons_of_mem _ ht))

theorem filter_fresh (l : List (Nat × Stage)) (n run : Nat) (hl : ∀ t ∈ l, t.1 < n)
    (hr : n ≤ run) : l.filter (fun t => t.1 != run) = l := by
  rw [List.filter_eq_self]
  intro t ht
  have := hl t ht
  simp only [bne_iff_ne, ne_eq]
  omega

theorem filter_drop (l : List (Nat × Stage)) (run : Nat) (st : Stage) :
    (l.filter (fun t => t.1 != run) ++ [(run, st)]).filter (fun t => t.1 != run)
      = l.filter (fun t => t.1 != run) := by
  simp [List.filter_append, List.filter_filter]

/-- A run that waits for its `fetch` and is delivered both settlements, with no other event in
between, does what `resume` does and is no longer suspended. -/
theorem run_settle (B : Browser) (s : System) (run : Nat) (outcome : Outcome)
    (h : s.stageOf run = some .awaitingFetch) :
    s.run B (settle run outcome) =
      { s with page := resume B outcome s.page, suspended := s.drop run } := by
  simp only [System.run, settle, List.foldl, System.step, h, resume]
  cases hf : afterFetch B outcome.fetched s.page with
  | finished q => simp [System.stageOf, System.drop, lookup_drop]
  | awaitBody q =>
      have hl : (s.drop run ++ [(run, Stage.awaitingBody)]).lookup run
          = some Stage.awaitingBody :=
        lookup_append_hit _ run _ [] (lookup_drop s.suspended run)
      simp only [System.stageOf, hl]
      simp [System.drop, filter_drop]

/-- The handler after its first `await` only adds to the record of effects, and what it adds
has no assignment to the input field and no call of `fetch`. -/
theorem resume_effects (B : Browser) (outcome : Outcome) (p : Page) :
    ∃ later : List Effect, (resume B outcome p).effects = p.effects ++ later ∧
      (∀ value : String, Effect.inputValue value ∉ later) ∧
      (∀ request : Request, Effect.fetch request ∉ later) := by
  rcases resume_cases B outcome p with
    ⟨error, hres⟩ | ⟨status, data, m, e, text, shown, -, -, -, -, -, -, hres⟩
  · exact ⟨_, by rw [hres, catchBlock_eq], by simp, by simp⟩
  · exact ⟨_, by rw [hres], by simp, by simp⟩

/-! ## The claims -/

/-- C4: with an empty input field the handler returns at once and leaves the page as it
was: log, input field, parameter display and issued requests are unchanged, and on the event
loop no run is suspended. -/
theorem empty_input_noop (B : Browser) (outcome : Outcome) (p : Page)
    (susp : List (Nat × Stage)) (n : Nat) (h : p.userInput = "") :
    submitSync B p = none ∧ submitHandler B outcome p = p ∧
      (System.step B ⟨p, susp, n⟩ .submit).page = p ∧
      (System.step B ⟨p, susp, n⟩ .submit).suspended = susp := by
  simp [submitHandler, System.step, submitSync_empty B p h]

theorem empty_input_noop_witness :
    (typedPage "").userInput = "" ∧
      submitSync sampleBrowser (typedPage "") = none ∧
      submitHandler sampleBrowser refused (typedPage "") = typedPage "" ∧
      (System.step sampleBrowser ⟨typedPage "", [], 0⟩ .submit).page = typedPage "" ∧
      (System.step sampleBrowser ⟨typedPage "", [], 0⟩ .submit).suspended = [] :=
  ⟨rfl, empty_input_noop sampleBrowser refused (typedPage "") [] 0 rfl⟩

/-- C5: with a non-empty input `t` (not trimmed) the handler reaches `fetch`, and up to
there it has made, in this order, exactly these writes and calls: it appends the user entry
with text `t`, scrolls, clears the field, and only then calls `fetch`. Whatever the outcome,
that record stays the start of what the run does, and the log ends with that one user entry
followed by one `ai` entry. -/
theorem user_entry_before_request (B : Browser) (p : Page) (h : p.userInput ≠ "") :
    ∃ p1 : Page, submitSync B p = some p1 ∧
      p1.effects = p.effects ++
        [.appendChild (userEntry p.userInput),
         .scrollTop (B.scrollHeight (p.chatLog ++ [userEntry p.userInput])),
         .inputValue "",
         .fetch (chatRequest p.userInput)] ∧
      p1.chatLog = p.chatLog ++ [userEntry p.userInput] ∧
      p1.requests = p.requests ++ [chatRequest p.userInput] ∧
      ∀ outcome : Outcome, ∃ (reply : MessageElement) (later : List Effect),
        reply.classList = ["message", "ai-message"] ∧
        (submitHandler B outcome p).chatLog = p.chatLog ++ [userEntry p.userInput, reply] ∧
        (submitHandler B outcome p).effects = p.effects ++
          [.appendChild (userEntry p.userInput),
           .scrollTop (B.scrollHeight (p.chatLog ++ [userEntry p.userInput])),
           .inputValue "",
           .fetch (chatRequest p.userInput)] ++ later := by
  obtain ⟨p1, hsync, hlog, -, -, -, hreq, -, heff⟩ := submitSync_fields B p h
  refine ⟨p1, hsync, heff, hlog, hreq, fun outcome => ?_⟩
  obtain ⟨text, display, printed, hres⟩ := resume_uniform B outcome
  obtain ⟨later, hlater, -, -⟩ := resume_effects B outcome p1
  refine ⟨aiEntry text, later, rfl, ?_, ?_⟩
  · rw [submitHandler_some B outcome p p1 hsync, (hres p1).1, hlog]
    simp
  · rw [submitHandler_some B outcome p p1 hsync, hlater, heff]

theorem user_entry_before_request_witness :
    (typedPage "  ").userInput ≠ "" ∧
      ∃ p1 : Page, submitSync sampleBrowser (typedPage "  ") = some p1 ∧
        p1.effects =
          [.appendChild (userEntry "  "), .scrollTop 100, .inputValue "",
           .fetch (chatRequest "  ")] ∧
        p1.chatLog = [userEntry "good morning", aiEntry "good morning!", userEntry "  "] := by
  obtain ⟨p1, hsync, heff, hlog, -, -⟩ :=
    user_entry_before_request sampleBrowser (typedPage "  ") (by decide)
  exact ⟨by decide, p1, hsync, heff, hlog⟩

/-- C6: a non-empty submission issues exactly one request whatever the outcome: a
`POST` to `http://127.0.0.1:5000/chat` with the header `Content-Type: application/json` whose
body is `JSON.stringify` of the object with the one property `message`, the text read from the
field before it was cleared. -/
theorem one_request_issued (B : Browser) (outcome : Outcome) (p : Page) (h : p.userInput ≠ "") :
    (submitHandler B outcome p).requests = p.requests ++
        [{ url := "http://127.0.0.1:5000/chat"
           method := "POST"
           headers := [("Content-Type", "application/json")]
           body := JSON.stringify (.object (.cons "message" (.string p.userInput) .nil)) 0 }] ∧
      JSON.stringify (.object (.cons "message" (.string p.userInput) .nil)) 0
        = .string ("\x7b\"message\":" ++ QuoteJSONString p.userInput ++ "\x7d") := by
  obtain ⟨text, display, printed, hres⟩ := resume_uniform B outcome
  obtain ⟨p1, hsync, -, -, -, -, hreq, -, -⟩ := submitSync_fields B p h
  refine ⟨?_, chatRequest_body p.userInput⟩
  rw [submitHandler_some B outcome p p1 hsync, (hres p1).2.2.2.2.1, hreq]
  rfl

theorem one_request_issued_witness :
    (typedPage "hi").userInput ≠ "" ∧
      ((submitHandler sampleBrowser refused (typedPage "hi")).requests.map
          (fun r => (r.url, r.method, r.headers, (setTextContent sampleBrowser r.body).toOption))
        = [("http://127.0.0.1:5000/chat", "POST", [("Content-Type", "application/json")],
              some "\x7b\"message\":\"good morning\"\x7d"),
           ("http://127.0.0.1:5000/chat", "POST", [("Content-Type", "application/json")],
              some "\x7b\"message\":\"hi\"\x7d")]) :=
  ⟨by decide, by
    rw [(one_request_issued sampleBrowser refused (typedPage "hi") (by decide)).1]
    decide⟩

/-- C7: after a non-empty submission the input field is empty when `fetch` has been
called and before it is awaited, at the second `await`, and when the handler has finished,
whatever the outcome. No later step of the handler writes to the field: from any page, each
stretch of the handler after the first `await` leaves the field's value as it finds it and
records no assignment to it, so a draft typed while the request is out is still there when the
run has ended. -/
theorem input_cleared (B : Browser) (p : Page) (h : p.userInput ≠ "") :
    ∃ p1 : Page, submitSync B p = some p1 ∧
      p1.chatLog = p.chatLog ++ [userEntry p.userInput] ∧ p1.userInput = "" ∧
      (∀ fetched q, afterFetch B fetched p1 = .awaitBody q → q.userInput = "") ∧
      (∀ outcome : Outcome, (submitHandler B outcome p).userInput = "") ∧
      (∀ (fetched : Settled Response) (q : Page),
        (afterFetch B fetched q).page.userInput = q.userInput) ∧
      (∀ (body : Settled JSValue) (q : Page), (afterBody B body q).userInput = q.userInput) ∧
      (∀ (outcome : Outcome) (q : Page),
        (resume B outcome q).userInput = q.userInput ∧
        ∃ later : List Effect, (resume B outcome q).effects = q.effects ++ later ∧
          ∀ value : String, Effect.inputValue value ∉ later) ∧
      ∀ (outcome : Outcome) (draft : String) (n : Nat),
        (System.run B ⟨p, [], n⟩ ([.submit, .edit draft] ++ settle n outcome)).page.userInput
          = draft := by
  obtain ⟨p1, hsync, hlog, -, hin, -, -, -, -⟩ := submitSync_fields B p h
  have hframe : ∀ (outcome : Outcome) (q : Page), (resume B outcome q).userInput = q.userInput :=
    fun outcome q => by
      obtain ⟨text, display, printed, hres⟩ := resume_uniform B outcome
      exact (hres q).2.2.1
  refine ⟨p1, hsync, hlog, hin, ?_, ?_, ?_, ?_, ?_, ?_⟩
  · intro fetched q hq
    cases fetched with
    | rejected error => simp [afterFetch] at hq
    | fulfilled response =>
        cases hok : response.ok <;> simp [afterFetch, hok] at hq
        subst hq
        exact hin
  · intro outcome
    rw [submitHandler_some B outcome p p1 hsync, hframe, hin]
  · intro fetched q
    cases fetched with
    | rejected error => simp [afterFetch, Progress.page, catchBlock_eq]
    | fulfilled response =>
        cases hok : response.ok <;> simp [afterFetch, hok, Progress.page, catchBlock_eq]
  · intro body q
    have := hframe ⟨.fulfilled ⟨200⟩, body⟩ q
    rwa [resume_ok B 200 body q (by decide)] at this
  · intro outcome q
    obtain ⟨later, hlater, hno, -⟩ := resume_effects B outcome q
    exact ⟨hframe outcome q, later, hlater, hno⟩
  · intro outcome draft n
    have h1 : System.run B ⟨p, [], n⟩ [.submit, .edit draft]
        = ⟨{ p1 with userInput := draft }, [(n, .awaitingFetch)], n + 1⟩ := by
      simp [System.run, System.step, hsync]
    have hrun : ∀ (t : System) (xs ys : List Event),
        t.run B (xs ++ ys) = (t.run B xs).run B ys := by
      intro t xs ys
      simp [System.run, List.foldl_append]
    rw [hrun, h1, run_settle B _ n outcome (by simp [System.stageOf, List.lookup])]
    exact hframe outcome _

theorem input_cleared_witness :
    (typedPage "hi").userInput ≠ "" ∧
      (submitHandler sampleBrowser (answered 200 helloData) (typedPage "hi")).userInput = "" ∧
      (submitHandler sampleBrowser (answered 500 helloData) (typedPage "hi")).userInput = "" ∧
      (submitHandler sampleBrowser refused (typedPage "hi")).userInput = "" ∧
      (submitHandler sampleBrowser (answered 200 .null) (typedPage "hi")).userInput = "" ∧
      (resume sampleBrowser refused (typedPage "draft")).userInput = "draft" ∧
      (System.run sampleBrowser ⟨typedPage "hi", [], 0⟩
        ([.submit, .edit "draft"] ++ settle 0 refused)).page.userInput = "draft" := by
  obtain ⟨_, _, _, _, _, hfin, _, _, hres, hdraft⟩ :=
    input_cleared sampleBrowser (typedPage "hi") (by decide)
  exact ⟨by decide, hfin _, hfin _, hfin _, hfin _, (hres refused (typedPage "draft")).1,
    hdraft refused "draft" 0⟩

/-- C8: the log only grows at its end. For every prior log, non-empty input `t` and
outcome, the log after the handler is the prior log followed by the user entry for `t` and one
`ai` entry: the fixed failure text when the `catch` block ran (it then printed the error), and
otherwise the `ai_message` read from the parsed body of a 2xx response, as the `textContent`
setter stores it. -/
theorem log_append_only (B : Browser) (outcome : Outcome) (p : Page) (h : p.userInput ≠ "") :
    ∃ text : String,
      (submitHandler B outcome p).chatLog
        = p.chatLog ++ [userEntry p.userInput, aiEntry text] ∧
      ((∃ error : JSError, text = failureText ∧
          (submitHandler B outcome p).console = p.console ++ [("通信エラー:", error)]) ∨
       (∃ (status : Nat) (data ai_message : JSValue),
          outcome = ⟨.fulfilled ⟨status⟩, .fulfilled data⟩ ∧ Response.ok ⟨status⟩ = true ∧
          data.getProp B.typeError "ai_message" = .ok ai_message ∧
          setTextContent B ai_message = .ok text ∧
          (submitHandler B outcome p).console = p.console)) := by
  obtain ⟨p1, hsync, hlog, -, -, -, -, hcon, -⟩ := submitSync_fields B p h
  rw [submitHandler_some B outcome p p1 hsync]
  rcases resume_cases B outcome p1 with
    ⟨error, hres⟩ | ⟨status, data, m, e, text, shown, ho, hok, hm, he, ht, hs, hres⟩
  · refine ⟨failureText, ?_, .inl ⟨error, rfl, ?_⟩⟩
    · rw [hres, catchBlock_eq]
      simp [hlog]
    · rw [hres, catchBlock_eq]
      simp [hcon]
  · refine ⟨text, ?_, .inr ⟨status, data, m, ho, hok, hm, ht, ?_⟩⟩
    · rw [hres]
      simp [hlog]
    · rw [hres]
      exact hcon

theorem log_append_only_witness :
    (typedPage "hi").userInput ≠ "" ∧
      ∃ text : String,
        (submitHandler sampleBrowser (answered 503 helloData) (typedPage "hi")).chatLog
          = [userEntry "good morning", aiEntry "good morning!", userEntry "hi", aiEntry text] := by
  obtain ⟨text, hlog, _⟩ :=
    log_append_only sampleBrowser (answered 503 helloData) (typedPage "hi") (by decide)
  exact ⟨by decide, text, hlog⟩

/-- C9, as stated, fails: not every call of `appendMessage` scrolls the log. For a
message that cannot be converted to a string, here an object with an own property `toString`,
the assignment of line 65 throws, so the call ends before `appendChild` (line 66) and before
the assignment to `scrollTop` (line 69); the handler meets this when the parsed body carries
such an `ai_message`, and its `catch` block then runs. -/
theorem unconvertible_message_not_scrolled :
    appendMessage sampleBrowser (.object (.cons "toString" (.number (.finite "1")) .nil))
        (.string "ai") (typedPage "")
      = .error ⟨"TypeError", "Cannot convert object to primitive value"⟩ ∧
    (submitHandler sampleBrowser (answered 200 opaqueData) (typedPage "hi")).chatLog
      = [userEntry "good morning", aiEntry "good morning!", userEntry "hi",
          aiEntry failureText] ∧
    (submitHandler sampleBrowser (answered 200 opaqueData) (typedPage "hi")).console
      = [("通信エラー:", ⟨"TypeError", "Cannot convert object to primitive value"⟩)] := by
  refine ⟨rfl, ?_, ?_⟩ <;> decide

/-- C9, amended: every call of `appendMessage` whose message the `textContent` setter
can convert, which includes every string, returns having appended the entry and then assigned
to `scrollTop` the log's scroll height measured with the new entry in place, which leaves the
log scrolled to its bottom; a call whose message cannot be converted throws and returns no
page. So the log is at its bottom after the user entry of every non-empty submission and when
the run has ended, whatever the outcome. -/
theorem scrolled_to_bottom (B : Browser) (message sender : JSValue) (p : Page) :
    (∀ text : String, setTextContent B message = .ok text →
      ∃ (el : MessageElement) (q : Page), el.textContent = text ∧
        appendMessage B message sender p = .ok q ∧
        q = setScrollTop B (B.scrollHeight (p.chatLog ++ [el])) (appendChild el p) ∧
        q.chatLog = p.chatLog ++ [el] ∧
        q.effects = p.effects ++
          [.appendChild el, .scrollTop (B.scrollHeight (p.chatLog ++ [el]))] ∧
        q.scrollTop = B.scrollMax (p.chatLog ++ [el])) ∧
    (∀ error : JSError, setTextContent B message = .error error →
      appendMessage B message sender p = .error error) ∧
    (∀ text : String, setTextContent B (.string text) = .ok text) ∧
    (p.userInput ≠ "" →
      (∃ p1 : Page, submitSync B p = some p1 ∧ p1.scrollTop = B.scrollMax p1.chatLog) ∧
      ∀ outcome : Outcome,
        (submitHandler B outcome p).scrollTop
          = B.scrollMax (submitHandler B outcome p).chatLog) := by
  refine ⟨fun text ht => ?_, fun error he => appendMessage_error B _ _ error p he,
    setTextContent_string B, fun h => ?_⟩
  · refine ⟨⟨if isUser sender then ["message", "user-message"] else ["message", "ai-message"],
      text⟩, _, rfl, appendMessage_ok B message sender text p ht, ?_, rfl, rfl, rfl⟩
    simp [setScrollTop, appendChild, Browser.scrollMax]
  · obtain ⟨p1, hsync, -, hscroll, -, -, -, -, -⟩ := submitSync_fields B p h
    refine ⟨⟨p1, hsync, hscroll⟩, fun outcome => ?_⟩
    obtain ⟨text, display, printed, hres⟩ := resume_uniform B outcome
    rw [submitHandler_some B outcome p p1 hsync, (hres p1).2.1, (hres p1).1]

theorem scrolled_to_bottom_witness :
    (typedPage "hi").userInput ≠ "" ∧
      setTextContent sampleBrowser (.string "one") = .ok "one" ∧
      (∃ q : Page,
        appendMessage sampleBrowser (.string "one") (.string "user")
          { typedPage "hi" with chatLog := List.replicate 9 (userEntry "x") } = .ok q ∧
        q.scrollTop = 100) ∧
      (submitHandler sampleBrowser refused
        { typedPage "hi" with chatLog := List.replicate 9 (userEntry "x") }).scrollTop = 120 := by
  have h := scrolled_to_bottom sampleBrowser (.string "one") (.string "user")
    { typedPage "hi" with chatLog := List.replicate 9 (userEntry "x") }
  obtain ⟨el, q, hel, hq, -, hlog, -, hscroll⟩ := h.1 "one" rfl
  refine ⟨by decide, rfl, ⟨q, hq, ?_⟩, ?_⟩
  · rw [hscroll]
    simp [Browser.scrollMax, sampleBrowser]
  · rw [(h.2.2.2 (by decide)).2 refused]
    decide

/-- C1, as stated, fails: a 2xx response whose body is the empty JSON object is not
handled as a failure. Both property reads give `undefined`, so the log gains an `ai` entry
with empty text instead of the failure text, the parameter display becomes empty instead of an
error string and nothing is printed. And a non-2xx result does depend on the status code: the
displays for 404 and 500 differ. -/
theorem empty_object_is_not_a_failure :
    (submitHandler sampleBrowser (answered 200 (.object .nil)) (typedPage "hi")).chatLog
        = [userEntry "good morning", aiEntry "good morning!", userEntry "hi", aiEntry ""] ∧
      aiEntry "" ≠ aiEntry failureText ∧
      (submitHandler sampleBrowser (answered 200 (.object .nil)) (typedPage "hi")).emotionDisplay
        = "" ∧
      (submitHandler sampleBrowser (answered 200 (.object .nil)) (typedPage "hi")).console = [] ∧
      (submitHandler sampleBrowser (answered 404 helloData) (typedPage "hi")).emotionDisplay
        ≠ (submitHandler sampleBrowser (answered 500 helloData) (typedPage "hi")).emotionDisplay := by
  decide

/-- C1, amended: a response is handled as a failure when its status is not 2xx, when
`response.json()` rejects, when the body parses to `null`, or when the `ai_message` read from
the parsed body cannot be converted to a string. Then the log gains the user entry and exactly
one `ai` entry with the fixed failure text, whatever the status, and the parameter display is
`エラー: ` followed by the error's message (which names the status of a non-2xx response). A
2xx body that parses to any other value is not a failure, whatever fields it has: the `ai`
entry carries `data.ai_message` and the display `JSON.stringify` of `data.emotion_parameters`,
each as the `textContent` setter stores it (a missing field, read as `undefined`, is stored as
the empty string), and nothing is printed. -/
theorem failure_path (B : Browser) (status : Nat) (body : Settled JSValue) (p : Page)
    (h : p.userInput ≠ "") :
    (Response.ok ⟨status⟩ = false →
      (submitHandler B ⟨.fulfilled ⟨status⟩, body⟩ p).chatLog
        = p.chatLog ++ [userEntry p.userInput, aiEntry failureText] ∧
      (submitHandler B ⟨.fulfilled ⟨status⟩, body⟩ p).emotionDisplay
        = "エラー: " ++ ("サーバーエラー: " ++ toString status)) ∧
    (∀ error : JSError, Response.ok ⟨status⟩ = true → body = .rejected error →
      (submitHandler B ⟨.fulfilled ⟨status⟩, body⟩ p).chatLog
        = p.chatLog ++ [userEntry p.userInput, aiEntry failureText] ∧
      (submitHandler B ⟨.fulfilled ⟨status⟩, body⟩ p).emotionDisplay
        = "エラー: " ++ error.message) ∧
    (Response.ok ⟨status⟩ = true → body = .fulfilled .null →
      (submitHandler B ⟨.fulfilled ⟨status⟩, body⟩ p).chatLog
        = p.chatLog ++ [userEntry p.userInput, aiEntry failureText] ∧
      (submitHandler B ⟨.fulfilled ⟨status⟩, body⟩ p).emotionDisplay
        = "エラー: " ++ B.typeError .null "ai_message") ∧
    (∀ data : JSValue, Response.ok ⟨status⟩ = true → body = .fulfilled data →
      data ≠ .null → data ≠ .undefined →
      ∃ ai_message emotion_parameters : JSValue,
        data.getProp B.typeError "ai_message" = .ok ai_message ∧
        data.getProp B.typeError "emotion_parameters" = .ok emotion_parameters ∧
        (∀ error : JSError, setTextContent B ai_message = .error error →
          (submitHandler B ⟨.fulfilled ⟨status⟩, body⟩ p).chatLog
            = p.chatLog ++ [userEntry p.userInput, aiEntry failureText] ∧
          (submitHandler B ⟨.fulfilled ⟨status⟩, body⟩ p).emotionDisplay
            = "エラー: " ++ error.message) ∧
        (∀ text : String, setTextContent B ai_message = .ok text →
          ∃ shown : String,
            setTextContent B (JSON.stringify emotion_parameters 2) = .ok shown ∧
            (submitHandler B ⟨.fulfilled ⟨status⟩, body⟩ p).chatLog
              = p.chatLog ++ [userEntry p.userInput, aiEntry text] ∧
            (submitHandler B ⟨.fulfilled ⟨status⟩, body⟩ p).emotionDisplay = shown ∧
            (submitHandler B ⟨.fulfilled ⟨status⟩, body⟩ p).console = p.console)) ∧
    setTextContent B .undefined = .ok "" := by
  obtain ⟨p1, hsync, hlog, -, -, -, -, hcon, -⟩ := submitSync_fields B p h
  rw [submitHandler_some B _ p p1 hsync]
  refine ⟨fun hok => ?_, fun error hok hb => ?_, fun hok hb => ?_,
    fun data hok hb hn hu => ?_, rfl⟩
  · rw [resume_not_ok B status body _ hok, catchBlock_eq]
    simp [hlog, serverError]
  · subst hb
    rw [resume_ok B status _ _ hok, afterBody_rejected, catchBlock_eq]
    simp [hlog]
  · subst hb
    rw [resume_ok B status _ _ hok, afterBody_null, catchBlock_eq]
    simp [hlog]
  · subst hb
    obtain ⟨m, e, hm, he⟩ := getProp_value B data hn hu
    refine ⟨m, e, hm, he, fun error ht => ?_, fun text ht => ?_⟩
    · rw [resume_ok B status _ _ hok, afterBody_unconvertible B data m error p1 hm ht,
        catchBlock_eq]
      simp [hlog]
    · obtain ⟨shown, hs⟩ := setTextContent_stringify B e 2
      refine ⟨shown, hs, ?_⟩
      rw [resume_ok B status _ _ hok, afterBody_rendered B data m e text shown p1 hm he ht hs]
      simp [hlog, hcon]

theorem failure_path_witness :
    (typedPage "hi").userInput ≠ "" ∧ Response.ok ⟨404⟩ = false ∧
      (submitHandler sampleBrowser (answered 404 helloData) (typedPage "hi")).chatLog
        = [userEntry "good morning", aiEntry "good morning!", userEntry "hi",
            aiEntry failureText] ∧
      (submitHandler sampleBrowser (answered 404 helloData) (typedPage "hi")).emotionDisplay
        = "エラー: サーバーエラー: 404" ∧
      (submitHandler sampleBrowser (answered 200 opaqueData) (typedPage "hi")).chatLog
        = [userEntry "good morning", aiEntry "good morning!", userEntry "hi",
            aiEntry failureText] ∧
      (submitHandler sampleBrowser (answered 200 opaqueData) (typedPage "hi")).emotionDisplay
        = "エラー: Cannot convert object to primitive value" := by
  have h := (failure_path sampleBrowser 404 (.fulfilled helloData) (typedPage "hi")
    (by decide)).1 (by decide)
  exact ⟨by decide, by decide, h.1, h.2.trans (by decide), by decide, by decide⟩

/-- C2: for a 2xx response whose body parses to an object with the string `m` as
`ai_message` and an object as `emotion_parameters`, the handler appends the user entry and
exactly one `ai` entry with text `m`, does not run the `catch` block, and sets the parameter
display to the text `JSON.stringify(emotion_parameters, null, 2)`. -/
theorem success_rendering (B : Browser) (status : Nat) (props q : JSProps) (m : String)
    (p : Page) (h : p.userInput ≠ "") (hok : Response.ok ⟨status⟩ = true)
    (hm : props.find "ai_message" = some (.string m))
    (hq : props.find "emotion_parameters" = some (.object q)) :
    ∃ text : String, JSON.stringify (.object q) 2 = .string text ∧
      (submitHandler B (answered status (.object props)) p).chatLog
        = p.chatLog ++ [userEntry p.userInput, aiEntry m] ∧
      (submitHandler B (answered status (.object props)) p).emotionDisplay = text ∧
      (submitHandler B (answered status (.object props)) p).console = p.console := by
  obtain ⟨p1, hsync, hlog, -, -, -, -, hcon, -⟩ := submitSync_fields B p h
  obtain ⟨text, htext⟩ : ∃ text : String, JSON.stringify (.object q) 2 = .string text :=
    ⟨_, by simp [JSON.stringify, serializeProperty]; rfl⟩
  have hs : setTextContent B (JSON.stringify (.object q) 2) = .ok text := by
    rw [htext]
    exact setTextContent_string B text
  refine ⟨text, htext, ?_⟩
  rw [submitHandler_some B _ p p1 hsync]
  simp only [answered]
  rw [resume_ok B status _ _ hok,
    afterBody_rendered B (.object props) (.string m) (.object q) m text p1
      (by simp [JSValue.getProp, hm]) (by simp [JSValue.getProp, hq])
      (setTextContent_string B m) hs]
  simp [hlog, hcon]

theorem success_rendering_witness :
    (typedPage "hi").userInput ≠ "" ∧ Response.ok ⟨200⟩ = true ∧
      (submitHandler sampleBrowser (answered 200 helloData) (typedPage "hi")).chatLog
        = [userEntry "good morning", aiEntry "good morning!", userEntry "hi", aiEntry "hello"] ∧
      (submitHandler sampleBrowser (answered 200 helloData) (typedPage "hi")).emotionDisplay
        = "\x7b\n  \"joy\": 0.5\n\x7d" := by
  obtain ⟨text, htext, hlog, hdisp, _⟩ :=
    success_rendering sampleBrowser 200
      (.cons "ai_message" (.string "hello")
        (.cons "emotion_parameters" (.object (.cons "joy" (.number (.finite "0.5")) .nil)) .nil))
      (.cons "joy" (.number (.finite "0.5")) .nil) "hello" (typedPage "hi")
      (by decide) (by decide) (by simp [JSProps.find]) (by simp [JSProps.find])
  exact ⟨by decide, by decide, hlog, by decide⟩

/-- C3: a failed request, be it a rejected `fetch` with message `e` or a response with
a non-2xx status `s`, appends the user entry and exactly one `ai` entry with the fixed failure
text and sets the parameter display to `エラー: ` followed by the error's message, which for
the non-2xx response is `サーバーエラー: ` followed by `s`. On a non-2xx response the handler
ends without calling `response.json()`, so the body plays no part, and the run is the run of a
rejected `fetch` whose error is `Error` with that message. -/
theorem failed_request (B : Browser) (p : Page) (h : p.userInput ≠ "") :
    (∀ (error : JSError) (body : Settled JSValue),
      (submitHandler B ⟨.rejected error, body⟩ p).chatLog
        = p.chatLog ++ [userEntry p.userInput, aiEntry failureText] ∧
      (submitHandler B ⟨.rejected error, body⟩ p).emotionDisplay
        = "エラー: " ++ error.message) ∧
    (∀ (status : Nat) (body : Settled JSValue), Response.ok ⟨status⟩ = false →
      (submitHandler B ⟨.fulfilled ⟨status⟩, body⟩ p).chatLog
        = p.chatLog ++ [userEntry p.userInput, aiEntry failureText] ∧
      (submitHandler B ⟨.fulfilled ⟨status⟩, body⟩ p).emotionDisplay
        = "エラー: " ++ ("サーバーエラー: " ++ toString status) ∧
      (∀ q : Page, ∃ q1 : Page, afterFetch B (.fulfilled ⟨status⟩) q = .finished q1) ∧
      ∀ body1 : Settled JSValue,
        submitHandler B ⟨.fulfilled ⟨status⟩, body⟩ p
          = submitHandler B ⟨.rejected ⟨"Error", "サーバーエラー: " ++ toString status⟩, body1⟩ p) := by
  obtain ⟨p1, hsync, hlog, -, -, -, -, -, -⟩ := submitSync_fields B p h
  constructor
  · intro error body
    rw [submitHandler_some B _ p p1 hsync, resume_rejected, catchBlock_eq]
    simp [hlog]
  · intro status body hok
    refine ⟨?_, ?_, fun q => ⟨_, by simp [afterFetch, hok]; rfl⟩, fun body1 => ?_⟩
    · rw [submitHandler_some B _ p p1 hsync, resume_not_ok B status body _ hok, catchBlock_eq]
      simp [hlog]
    · rw [submitHandler_some B _ p p1 hsync, resume_not_ok B status body _ hok, catchBlock_eq]
      simp [serverError]
    · rw [submitHandler_some B _ p p1 hsync, submitHandler_some B _ p p1 hsync,
        resume_not_ok B status body _ hok, resume_rejected]
      rfl

theorem failed_request_witness :
    (typedPage "hi").userInput ≠ "" ∧
      (submitHandler sampleBrowser refused (typedPage "hi")).chatLog
        = [userEntry "good morning", aiEntry "good morning!", userEntry "hi",
            aiEntry failureText] ∧
      (submitHandler sampleBrowser refused (typedPage "hi")).emotionDisplay
        = "エラー: Failed to fetch" := by
  have h := (failed_request sampleBrowser (typedPage "hi") (by decide)).1
    ⟨"TypeError", "Failed to fetch"⟩ (.rejected ⟨"TypeError", "Failed to fetch"⟩)
  exact ⟨by decide, h.1, h.2.trans (by decide)⟩

/-- C10: two non-empty submissions `a` then `b` overlap: after the second submit both
requests are out and both runs wait for their `fetch`, nothing having held back or dropped the
second. When the request for `b` then settles before the request for `a`, the log ends with
user `a`, user `b`, the reply entry for `b`, the reply entry for `a`, the reply entry for an
outcome being the `ai` entry the handler appends for it when it runs alone. -/
theorem replies_in_completion_order (B : Browser) (s : System) (a b : String)
    (oa ob : Outcome) (ha : a ≠ "") (hb : b ≠ "")
    (hs : ∀ t ∈ s.suspended, t.1 < s.submissions) :
    ∃ ra rb : MessageElement,
      (∀ p : Page, p.userInput = a →
        (submitHandler B oa p).chatLog = p.chatLog ++ [userEntry a, ra]) ∧
      (∀ p : Page, p.userInput = b →
        (submitHandler B ob p).chatLog = p.chatLog ++ [userEntry b, rb]) ∧
      (s.run B [.edit a, .submit, .edit b, .submit]).page.requests
        = s.page.requests ++ [chatRequest a, chatRequest b] ∧
      (s.run B [.edit a, .submit, .edit b, .submit]).suspended
        = s.suspended ++
          [(s.submissions, .awaitingFetch), (s.submissions + 1, .awaitingFetch)] ∧
      (s.run B ([.edit a, .submit, .edit b, .submit]
          ++ settle (s.submissions + 1) ob ++ settle s.submissions oa)).page.chatLog
        = s.page.chatLog ++ [userEntry a, userEntry b, rb, ra] ∧
      (s.run B ([.edit a, .submit, .edit b, .submit]
          ++ settle (s.submissions + 1) ob ++ settle s.submissions oa)).suspended
        = s.suspended := by
  obtain ⟨ta, da, ca, hra⟩ := resume_uniform B oa
  obtain ⟨tb, db, cb, hrb⟩ := resume_uniform B ob
  obtain ⟨pa, hsa, hloga, -, -, -, hreqa, -, -⟩ :=
    submitSync_fields B { s.page with userInput := a } ha
  obtain ⟨pb, hsb, hlogb, -, -, -, hreqb, -, -⟩ :=
    submitSync_fields B { pa with userInput := b } hb
  have hmid : s.run B [.edit a, .submit, .edit b, .submit] =
      { page := pb
        suspended := s.suspended ++
          [(s.submissions, .awaitingFetch), (s.submissions + 1, .awaitingFetch)]
        submissions := s.submissions + 2 } := by
    simp [System.run, System.step, hsa, hsb]
  have hfa : s.suspended.lookup s.submissions = none :=
    lookup_fresh _ _ _ hs (Nat.le_refl _)
  refine ⟨aiEntry ta, aiEntry tb, ?_, ?_, ?_, by rw [hmid], ?_⟩
  · intro p hp
    subst hp
    obtain ⟨p1, hsync, hlog, -, -, -, -, -, -⟩ := submitSync_fields B p ha
    rw [submitHandler_some B oa p p1 hsync, (hra p1).1, hlog]
    simp
  · intro p hp
    subst hp
    obtain ⟨p1, hsync, hlog, -, -, -, -, -, -⟩ := submitSync_fields B p hb
    rw [submitHandler_some B ob p p1 hsync, (hrb p1).1, hlog]
    simp
  · rw [hmid]
    simp [hreqb, hreqa]
  · have hrun : ∀ (t : System) (xs ys : List Event),
        t.run B (xs ++ ys) = (t.run B xs).run B ys := by
      intro t xs ys
      simp [System.run, List.foldl_append]
    rw [hrun, hrun, hmid]
    have hb1 : System.stageOf
        { page := pb
          suspended := s.suspended ++
            [(s.submissions, .awaitingFetch), (s.submissions + 1, .awaitingFetch)]
          submissions := s.submissions + 2 } (s.submissions + 1) = some .awaitingFetch := by
      have : (s.suspended ++ [(s.submissions, Stage.awaitingFetch)]).lookup (s.submissions + 1)
          = none :=
        lookup_fresh _ (s.submissions + 1) _
          (by
            intro t ht
            rcases List.mem_append.1 ht with h1 | h1
            · exact Nat.lt_succ_of_lt (hs t h1)
            · simp at h1
              subst h1
              exact Nat.lt_succ_self _)
          (Nat.le_refl _)
      have h2 := lookup_append_hit _ (s.submissions + 1) Stage.awaitingFetch [] this
      simpa [System.stageOf] using h2
    rw [run_settle B _ _ ob hb1]
    have hdrop : (s.suspended ++
          [(s.submissions, Stage.awaitingFetch), (s.submissions + 1, Stage.awaitingFetch)]).filter
            (fun t => t.1 != s.submissions + 1)
        = s.suspended ++ [(s.submissions, Stage.awaitingFetch)] := by
      rw [List.filter_append, filter_fresh _ _ _ hs (Nat.le_succ _)]
      have hne : (s.submissions != s.submissions + 1) = true := by simp
      simp [List.filter, hne]
    have ha1 : System.stageOf
        { page := resume B ob pb
          suspended := s.suspended ++ [(s.submissions, Stage.awaitingFetch)]
          submissions := s.submissions + 2 } s.submissions = some .awaitingFetch := by
      simpa [System.stageOf] using
        lookup_append_hit _ s.submissions Stage.awaitingFetch [] hfa
    simp only [System.drop, hdrop]
    rw [run_settle B _ _ oa ha1]
    constructor
    · show (resume B oa (resume B ob pb)).chatLog = _
      rw [(hra _).1, (hrb _).1, hlogb]
      simp [hloga]
    · simp only [System.drop]
      rw [List.filter_append, filter_fresh _ _ _ hs (Nat.le_refl _)]
      simp [List.filter]

theorem replies_in_completion_order_witness :
    "first" ≠ "" ∧ "second" ≠ "" ∧
      (System.run sampleBrowser ⟨typedPage "", [], 0⟩
        [.edit "first", .submit, .edit "second", .submit]).suspended
        = [(0, .awaitingFetch), (1, .awaitingFetch)] ∧
      (System.run sampleBrowser ⟨typedPage "", [], 0⟩
        ([.edit "first", .submit, .edit "second", .submit]
          ++ settle 1 refused ++ settle 0 (answered 200 helloData))).page.chatLog
        = [userEntry "good morning", aiEntry "good morning!",
            userEntry "first", userEntry "second", aiEntry failureText, aiEntry "hello"] := by
  obtain ⟨_, _, _, _, _, hsusp, _, _⟩ :=
    replies_in_completion_order sampleBrowser ⟨typedPage "", [], 0⟩ "first" "second"
      (answered 200 helloData) refused (by decide) (by decide) (by simp)
  exact ⟨by decide, by decide, hsusp, by decide⟩

end ChatClient
